import Mathlib

/-!
Verification development for the ndi-node bridging layer.

Shallow embedding of the marshalling, handle-lifecycle, capture-loop,
send-pipeline, discovery-polling and library-initialization logic of the
repository.  JavaScript objects are modelled as structures with `Option`
fields (a `none` field is an absent property), native frame records as
structures over `Int` (the C `int` fields), byte buffers as `List Nat`,
and 32-bit float samples as opaque list elements.  The single float-valued
field (`picture_aspect_ratio`) is modelled as an exact rational; the claims
about it concern which expression is assigned, not float rounding.
-/

namespace NdiNode

/-! ### FourCC and frame-format string conversions (NdiUtils, part_003) -/

inductive FourCC where
  | UYVY | BGRA | BGRX | RGBA | RGBX | I420 | NV12 | P216 | PA16
deriving DecidableEq

/-- The nine FourCC names recognised by `NdiUtils::StringToFourCC`. -/
def nineFourCCNames : List String :=
  ["UYVY", "BGRA", "BGRX", "RGBA", "RGBX", "I420", "NV12", "P216", "PA16"]

/-- `NdiUtils::StringToFourCC`: chained string comparisons with a silent
BGRA default for unrecognised names. -/
def StringToFourCC (s : String) : FourCC :=
  if s = "UYVY" then .UYVY
  else if s = "BGRA" then .BGRA
  else if s = "BGRX" then .BGRX
  else if s = "RGBA" then .RGBA
  else if s = "RGBX" then .RGBX
  else if s = "I420" then .I420
  else if s = "NV12" then .NV12
  else if s = "P216" then .P216
  else if s = "PA16" then .PA16
  else .BGRA

/-- `NdiUtils::FourCCToString`. -/
def FourCCToString : FourCC → String
  | .UYVY => "UYVY"
  | .BGRA => "BGRA"
  | .BGRX => "BGRX"
  | .RGBA => "RGBA"
  | .RGBX => "RGBX"
  | .I420 => "I420"
  | .NV12 => "NV12"
  | .P216 => "P216"
  | .PA16 => "PA16"

inductive FrameFormat where
  | progressive | interleaved | field0 | field1
deriving DecidableEq

/-- `NdiUtils::StringToFrameFormat` with its progressive default. -/
def StringToFrameFormat (s : String) : FrameFormat :=
  if s = "progressive" then .progressive
  else if s = "interleaved" then .interleaved
  else if s = "field0" then .field0
  else if s = "field1" then .field1
  else .progressive

/-- `NdiUtils::FrameFormatToString`. -/
def FrameFormatToString : FrameFormat → String
  | .progressive => "progressive"
  | .interleaved => "interleaved"
  | .field0 => "field0"
  | .field1 => "field1"

/-! ### Video frame marshalling (NdiUtils, part_003) -/

/-- A JS video-frame object: each field is `none` when the property is
absent.  `data` is the byte content of the Napi buffer. -/
structure VideoFrameObj where
  xres : Option Int := none
  yres : Option Int := none
  fourCC : Option String := none
  frameRateN : Option Int := none
  frameRateD : Option Int := none
  pictureAspectRatio : Option Rat := none
  frameFormatType : Option String := none
  timecode : Option Int := none
  lineStrideInBytes : Option Int := none
  metadata : Option String := none
  data : Option (List Nat) := none
deriving DecidableEq

/-- A native `NDIlib_video_frame_v2_t` record; `data` models `p_data`
(deep-copied bytes), `metadata` models `p_metadata`. -/
structure NativeVideoFrame where
  xres : Int := 0
  yres : Int := 0
  fourCC : FourCC := .BGRA
  frameRateN : Int := 0
  frameRateD : Int := 0
  pictureAspectRatio : Rat := 0
  frameFormatType : FrameFormat := .progressive
  timecode : Int := 0
  lineStrideInBytes : Int := 0
  metadata : Option String := none
  data : Option (List Nat) := none
deriving DecidableEq

/-- `NdiUtils::ObjectToVideoFrame`: field-by-field marshalling with the
defaults of the source (BGRA format, 30000/1001 rate, computed aspect ratio,
progressive format, stride from width and bytes-per-pixel), deep-copying
the data buffer. -/
def ObjectToVideoFrame (obj : VideoFrameObj) : NativeVideoFrame :=
  let xres := obj.xres.getD 0
  let yres := obj.yres.getD 0
  let fourCC := match obj.fourCC with
    | some s => StringToFourCC s
    | none => .BGRA
  let frameRateN := obj.frameRateN.getD 30000
  let frameRateD := obj.frameRateD.getD 1001
  let aspect := match obj.pictureAspectRatio with
    | some a => a
    | none => (xres : Rat) / (yres : Rat)
  let fmt := match obj.frameFormatType with
    | some s => StringToFrameFormat s
    | none => .progressive
  let timecode := obj.timecode.getD 0
  let stride := match obj.lineStrideInBytes with
    | some st => st
    | none =>
        let bytesPerPixel : Int := if fourCC = .UYVY then 2 else 4
        xres * bytesPerPixel
  { xres := xres, yres := yres, fourCC := fourCC,
    frameRateN := frameRateN, frameRateD := frameRateD,
    pictureAspectRatio := aspect, frameFormatType := fmt,
    timecode := timecode, lineStrideInBytes := stride,
    metadata := none, data := obj.data }

/-- `NdiUtils::VideoFrameToObject`: every scalar field is set on the
result object; the payload is copied (`yres * line_stride_in_bytes` bytes
read from `p_data`) only when `p_data` is non-null and both `yres` and the
stride are positive. -/
def VideoFrameToObject (f : NativeVideoFrame) : VideoFrameObj :=
  { xres := some f.xres
    yres := some f.yres
    fourCC := some (FourCCToString f.fourCC)
    frameRateN := some f.frameRateN
    frameRateD := some f.frameRateD
    pictureAspectRatio := some f.pictureAspectRatio
    frameFormatType := some (FrameFormatToString f.frameFormatType)
    timecode := some f.timecode
    lineStrideInBytes := some f.lineStrideInBytes
    metadata := f.metadata
    data := match f.data with
      | some bytes =>
          if 0 < f.yres ∧ 0 < f.lineStrideInBytes then
            some (bytes.take (f.yres * f.lineStrideInBytes).toNat)
          else none
      | none => none }

/-! ### Audio capture payload (CaptureAudioWorker / CaptureWorker, ndi_async.cpp) -/

/-- A native `NDIlib_audio_frame_v2_t` record.  Each element of `data` is
one 32-bit float sample (4 bytes); the native buffer holds the samples in
planar layout. -/
structure NativeAudioFrame where
  sampleRate : Int := 48000
  noChannels : Int := 0
  noSamples : Int := 0
  timecode : Int := 0
  channelStrideInBytes : Int := 0
  data : Option (List Int) := none
deriving DecidableEq

/-- The deep copy performed by `CaptureAudioWorker::Execute` (and the
identical audio branch of `CaptureWorker::Execute`): when `p_data` is
non-null and both counts are positive, exactly
`no_samples * no_channels` float elements are copied into the host-owned
vector. -/
def captureAudioPayload (f : NativeAudioFrame) : List Int :=
  match f.data with
  | some samples =>
      if 0 < f.noSamples ∧ 0 < f.noChannels then
        samples.take (f.noSamples * f.noChannels).toNat
      else []
  | none => []

/-- Size in bytes of the host-owned audio payload produced by the async
capture workers (each element is a 4-byte float). -/
def captureAudioPayloadBytes (f : NativeAudioFrame) : Nat :=
  4 * (captureAudioPayload f).length

/-! ### Handle lifecycle: error taxonomy and per-kind states -/

inductive NdiErr where
  | destroyedHandle | creationFailure | invalidArg
deriving DecidableEq

structure Tally where
  onProgram : Bool
  onPreview : Bool
deriving DecidableEq

/-- `NdiSender` internal state: `present` models `m_sender != nullptr`,
`destroyed` models `m_destroyed`, `asyncVideoBuffer` models the
`m_asyncVideoBuffer` pointer (identified by a numeric buffer id).
`nativeAsyncRefs` is the ghost set of host buffers the native async send
path may still reference: a buffer enters it when handed to
`NDIlib_send_send_video_async_v2` and the set is emptied by the blocking
null-frame flush, which waits until the native layer has released the
previous frame. -/
structure SenderState where
  present : Bool := true
  destroyed : Bool := false
  asyncVideoBuffer : Option Nat := none
  nativeAsyncRefs : List Nat := []
deriving DecidableEq

/-- Native-layer actions issued by the sender, in program order. -/
inductive NativeAct where
  | flushNull
  | releaseBuf (b : Nat)
  | asyncSendFrame (b : Option Nat)
  | destroyHandle
deriving DecidableEq

/-- `NdiSender::SendVideoAsync`: destroyed-handle guard, then — when a
previous async buffer is outstanding — a blocking null-frame flush
followed by `delete[]` of that buffer, then marshalling of the new frame
into `m_asyncVideoBuffer` and the async send.  `newBuf` is the id of the
freshly marshalled data buffer (`none` when the frame object carries no
data property). -/
def sendVideoAsync (s : SenderState) (newBuf : Option Nat) :
    Except NdiErr (SenderState × List NativeAct) :=
  if !s.present || s.destroyed then .error .destroyedHandle
  else
    let cleaned :=
      match s.asyncVideoBuffer with
      | some b =>
          ({ s with asyncVideoBuffer := none, nativeAsyncRefs := [] },
           [NativeAct.flushNull, NativeAct.releaseBuf b])
      | none => (s, ([] : List NativeAct))
    let s1 := cleaned.1
    .ok ({ s1 with asyncVideoBuffer := newBuf, nativeAsyncRefs := newBuf.toList },
         cleaned.2 ++ [NativeAct.asyncSendFrame newBuf])

/-- `NdiSender::Destroy`: first the outstanding async buffer (if any) is
flushed — via a null async send when the native handle still exists — and
freed; then, when the handle is present and not yet destroyed, the native
sender is destroyed and the destroyed flag set.  Repeat calls fall through
both conditionals.  The member returns `undefined` and has no throw path. -/
def senderDestroy (s : SenderState) : SenderState × List NativeAct :=
  let cleaned :=
    match s.asyncVideoBuffer with
    | some b =>
        ({ s with asyncVideoBuffer := none, nativeAsyncRefs := [] },
         (if s.present then [NativeAct.flushNull] else []) ++ [NativeAct.releaseBuf b])
    | none => (s, ([] : List NativeAct))
  let s1 := cleaned.1
  if s1.present && !s1.destroyed then
    ({ s1 with present := false, destroyed := true },
     cleaned.2 ++ [NativeAct.destroyHandle])
  else (s1, cleaned.2)

/-- Host-level commands against one sender, for the reachability
invariant. -/
inductive SenderCmd where
  | sendAsync (buf : Option Nat)
  | destroy
deriving DecidableEq

def senderStep (s : SenderState) : SenderCmd → SenderState
  | .sendAsync b =>
      match sendVideoAsync s b with
      | .ok r => r.1
      | .error _ => s
  | .destroy => (senderDestroy s).1

def runSender (s : SenderState) (cmds : List SenderCmd) : SenderState :=
  cmds.foldl senderStep s

/-- `NdiSender::GetTally` (synchronous): destroyed-handle guard, then the
native call; on native failure the method returns `null` rather than
throwing. -/
def senderGetTally (s : SenderState) (nativeSuccess : Bool) (t : Tally) :
    Except NdiErr (Option Tally) :=
  if !s.present || s.destroyed then .error .destroyedHandle
  else if !nativeSuccess then .ok none
  else .ok (some t)

/-- `GetTallyWorker::OnOK`: the promise is resolved with `null` when the
native call failed, otherwise with the tally object; the worker never
rejects on native failure. -/
def getTallyWorkerResolve (nativeSuccess : Bool) (t : Tally) : Option Tally :=
  if !nativeSuccess then none else some t

/-- The operations `NdiSender` exposes besides `destroy` and `isValid`. -/
inductive SenderOp where
  | sendVideo | sendVideoAsyncOp | sendVideoPromise | sendAudio | sendAudioPromise
  | sendMetadata | getTallyOp | getTallyAsyncOp | setTally | getConnections
  | getConnectionsAsync | getSourceName | clearConnectionMetadata | addConnectionMetadata
deriving DecidableEq

/-- The guard each `NdiSender` operation performs before touching the
native handle.  Every method throws the destroyed-handle error when
`!m_sender || m_destroyed` — except `SetTally`, which is a documented
compatibility no-op returning `undefined` unconditionally. -/
def senderOpGuard (s : SenderState) : SenderOp → Except NdiErr Unit
  | .setTally => .ok ()
  | _ => if !s.present || s.destroyed then .error .destroyedHandle else .ok ()

/-- `NdiFinder` internal state. -/
structure FinderState where
  present : Bool := true
  destroyed : Bool := false
deriving DecidableEq

inductive FinderOp where
  | getSources | waitForSources | getSourcesAsync | waitForSourcesAsync
deriving DecidableEq

/-- Destroyed-handle guard shared by all four `NdiFinder` operations. -/
def finderOpGuard (s : FinderState) (_ : FinderOp) : Except NdiErr Unit :=
  if !s.present || s.destroyed then .error .destroyedHandle else .ok ()

/-- `NdiFinder::Destroy`: destroys the native finder once; repeat calls
are no-ops.  The boolean reports whether the native destroy ran. -/
def finderDestroy (s : FinderState) : FinderState × Bool :=
  if s.present && !s.destroyed then ({ present := false, destroyed := true }, true)
  else (s, false)

/-- `NdiReceiver` internal state. -/
structure ReceiverState where
  present : Bool := true
  destroyed : Bool := false
deriving DecidableEq

/-- The 25 guarded `NdiReceiver` operations (everything but `destroy` and
`isValid`). -/
inductive ReceiverOp where
  | connect | capture | captureVideo | captureAudio | captureAsync
  | captureVideoAsync | captureAudioAsync | setTally | sendMetadata
  | ptzIsSupported | ptzZoom | ptzPanTilt | ptzPanTiltSpeed | ptzStorePreset
  | ptzRecallPreset | ptzAutoFocus | ptzFocus | ptzFocusSpeed
  | ptzWhiteBalanceAuto | ptzWhiteBalanceIndoor | ptzWhiteBalanceOutdoor
  | ptzWhiteBalanceOneshot | ptzWhiteBalanceManual | ptzExposureAuto | ptzExposureManual
deriving DecidableEq

/-- Destroyed-handle guard shared by every `NdiReceiver` operation. -/
def receiverOpGuard (s : ReceiverState) (_ : ReceiverOp) : Except NdiErr Unit :=
  if !s.present || s.destroyed then .error .destroyedHandle else .ok ()

/-- `NdiReceiver::Destroy`: same once-only shape as the finder. -/
def receiverDestroy (s : ReceiverState) : ReceiverState × Bool :=
  if s.present && !s.destroyed then ({ present := false, destroyed := true }, true)
  else (s, false)

/-! ### Continuous capture loop (Receiver.startCapture / stopCapture, part_004) -/

/-- Tag of a resolved `captureAsync` result (`result.type`). -/
inductive CaptureTag where
  | noFrame | video | audio | metadata | statusChange | err
deriving DecidableEq

/-- Events the capture loop can emit. -/
inductive CapEvent where
  | video | audio | metadata | statusChange | err
deriving DecidableEq

/-- The switch in the capture loop body: one event per non-none tag, and
nothing for the `none` tag (no case matches it). -/
def dispatchResult : CaptureTag → List CapEvent
  | .noFrame => []
  | .video => [.video]
  | .audio => [.audio]
  | .metadata => [.metadata]
  | .statusChange => [.statusChange]
  | .err => [.err]

/-- One observable step of the async capture loop: the resolution of an
in-flight `captureAsync` promise (fulfilled with a tagged result or
rejected), or a `stopCapture()` call clearing `_capturing`. -/
inductive CaptureStep where
  | resolve (t : CaptureTag)
  | reject
  | stop
deriving DecidableEq

/-- State transition and emitted events for one step.  A resolution is
dispatched only when `_capturing` is still set (`if (result &&
this._capturing)`), a rejection emits the error event only under the same
flag, and `stopCapture()` clears the flag and emits nothing. -/
def captureLoopStep (capturing : Bool) : CaptureStep → Bool × List CapEvent
  | .resolve t => (capturing, if capturing then dispatchResult t else [])
  | .reject => (capturing, if capturing then [CapEvent.err] else [])
  | .stop => (false, [])

/-- All events emitted over a sequence of steps. -/
def captureLoopRun (capturing : Bool) : List CaptureStep → List CapEvent
  | [] => []
  | st :: rest =>
      (captureLoopStep capturing st).2 ++ captureLoopRun (captureLoopStep capturing st).1 rest

/-- The `_capturing` flag after a sequence of steps. -/
def captureLoopState (capturing : Bool) (steps : List CaptureStep) : Bool :=
  steps.foldl (fun c st => (captureLoopStep c st).1) capturing

/-! ### Discovery polling (Finder.startPolling, part_004) -/

/-- A discovered source: name and URL address. -/
abbrev NdiSource := String × String

/-- Model of `JSON.stringify` on one source object. -/
def serializeSource (s : NdiSource) : String :=
  "(" ++ s.1 ++ "," ++ s.2 ++ ")"

/-- Model of `JSON.stringify` on a source array. -/
def serializeSources (l : List NdiSource) : String :=
  "[" ++ String.intercalate "," (l.map serializeSource) ++ "]"

/-- One tick of the polling interval in `Finder.startPolling`: only when
`waitForSources(100)` reports a change is the snapshot fetched, serialized
and compared against `lastSources`; the event fires — and `lastSources`
updates — only on serialized inequality.  Returns the new `lastSources`
and whether the sources event was emitted. -/
def pollStep (lastSources : String) (changed : Bool) (srcs : List NdiSource) :
    String × Bool :=
  if changed then
    let j := serializeSources srcs
    if j ≠ lastSources then (j, true) else (lastSources, false)
  else (lastSources, false)

/-! ### Library initialization (ndi_addon.cpp) -/

/-- An event against the global initialization flag.  For `libInit` the
boolean is the value `NDIlib_initialize()` would return if invoked. -/
inductive LibEvent where
  | libInit (r : Bool)
  | libDestroy
deriving DecidableEq

/-- Result of one addon-level call: the new flag value, what
`initialize()` returned (`none` for `destroy()`), and whether the native
init / native destroy actually ran. -/
structure LibStepOut where
  state : Bool
  ret : Option Bool
  nativeInit : Bool
  nativeDestroy : Bool
deriving DecidableEq

/-- `Initialize` and `Destroy` from ndi_addon.cpp acting on the
`g_ndi_initialized` flag. -/
def libStep (g : Bool) : LibEvent → LibStepOut
  | .libInit r =>
      if g then { state := true, ret := some true, nativeInit := false, nativeDestroy := false }
      else { state := r, ret := some r, nativeInit := true, nativeDestroy := false }
  | .libDestroy =>
      if g then { state := false, ret := none, nativeInit := false, nativeDestroy := true }
      else { state := false, ret := none, nativeInit := false, nativeDestroy := false }

/-- The flag after a sequence of events (what `isInitialized()` reports). -/
def libRun (g : Bool) (es : List LibEvent) : Bool :=
  es.foldl (fun g e => (libStep g e).state) g

/-- The last event that actually changed the flag, if any. -/
def lastChange (g : Bool) : List LibEvent → Option LibEvent
  | [] => none
  | e :: es =>
      let g2 := (libStep g e).state
      match lastChange g2 es with
      | some x => some x
      | none => if g2 = g then none else some e

/-! ### Helper lemmas -/

theorem fourCCToString_stringToFourCC (s : String) (h : s ∈ nineFourCCNames) :
    FourCCToString (StringToFourCC s) = s := by
  fin_cases h <;> rfl

/-! ### Claim theorems -/

/-- Claim C1: for every valid video frame object — all of width, height, a
known FourCC tag, frame-rate numerator and denominator, line stride and a
payload buffer present, with positive height and stride and payload length
equal to height times stride — marshalling it to a native frame with
`ObjectToVideoFrame` and back with `VideoFrameToObject` reproduces
identical `xres`, `yres`, `fourCC`, `frameRateN`, `frameRateD`,
`lineStrideInBytes` and identical payload bytes. -/
theorem videoFrame_encode_decode_roundtrip
    (obj : VideoFrameObj) (x y n d st : Int) (s : String) (bytes : List Nat)
    (hx : obj.xres = some x) (hy : obj.yres = some y)
    (hs : obj.fourCC = some s) (hmem : s ∈ nineFourCCNames)
    (hn : obj.frameRateN = some n) (hd : obj.frameRateD = some d)
    (hst : obj.lineStrideInBytes = some st)
    (hdata : obj.data = some bytes)
    (hy0 : 0 < y) (hst0 : 0 < st)
    (hlen : bytes.length = (y * st).toNat) :
    (VideoFrameToObject (ObjectToVideoFrame obj)).xres = some x ∧
    (VideoFrameToObject (ObjectToVideoFrame obj)).yres = some y ∧
    (VideoFrameToObject (ObjectToVideoFrame obj)).fourCC = some s ∧
    (VideoFrameToObject (ObjectToVideoFrame obj)).frameRateN = some n ∧
    (VideoFrameToObject (ObjectToVideoFrame obj)).frameRateD = some d ∧
    (VideoFrameToObject (ObjectToVideoFrame obj)).lineStrideInBytes = some st ∧
    (VideoFrameToObject (ObjectToVideoFrame obj)).data = some bytes := by
  have hfour := fourCCToString_stringToFourCC s hmem
  simp [VideoFrameToObject, ObjectToVideoFrame, hx, hy, hs, hn, hd, hst, hdata,
    hfour, hy0, hst0, ← hlen, List.take_length]

/-- Concrete instance of the C1 round-trip on a 2-by-1 UYVY frame. -/
theorem videoFrame_encode_decode_roundtrip_witness :
    (VideoFrameToObject (ObjectToVideoFrame
      { xres := some 2, yres := some 1, fourCC := some "UYVY",
        frameRateN := some 30000, frameRateD := some 1001,
        lineStrideInBytes := some 4, data := some [9, 8, 7, 6] })).xres = some 2 ∧
    (VideoFrameToObject (ObjectToVideoFrame
      { xres := some 2, yres := some 1, fourCC := some "UYVY",
        frameRateN := some 30000, frameRateD := some 1001,
        lineStrideInBytes := some 4, data := some [9, 8, 7, 6] })).yres = some 1 ∧
    (VideoFrameToObject (ObjectToVideoFrame
      { xres := some 2, yres := some 1, fourCC := some "UYVY",
        frameRateN := some 30000, frameRateD := some 1001,
        lineStrideInBytes := some 4, data := some [9, 8, 7, 6] })).fourCC = some "UYVY" ∧
    (VideoFrameToObject (ObjectToVideoFrame
      { xres := some 2, yres := some 1, fourCC := some "UYVY",
        frameRateN := some 30000, frameRateD := some 1001,
        lineStrideInBytes := some 4, data := some [9, 8, 7, 6] })).frameRateN = some 30000 ∧
    (VideoFrameToObject (ObjectToVideoFrame
      { xres := some 2, yres := some 1, fourCC := some "UYVY",
        frameRateN := some 30000, frameRateD := some 1001,
        lineStrideInBytes := some 4, data := some [9, 8, 7, 6] })).frameRateD = some 1001 ∧
    (VideoFrameToObject (ObjectToVideoFrame
      { xres := some 2, yres := some 1, fourCC := some "UYVY",
        frameRateN := some 30000, frameRateD := some 1001,
        lineStrideInBytes := some 4, data := some [9, 8, 7, 6] })).lineStrideInBytes = some 4 ∧
    (VideoFrameToObject (ObjectToVideoFrame
      { xres := some 2, yres := some 1, fourCC := some "UYVY",
        frameRateN := some 30000, frameRateD := some 1001,
        lineStrideInBytes := some 4, data := some [9, 8, 7, 6] })).data = some [9, 8, 7, 6] :=
  videoFrame_encode_decode_roundtrip
    { xres := some 2, yres := some 1, fourCC := some "UYVY",
      frameRateN := some 30000, frameRateD := some 1001,
      lineStrideInBytes := some 4, data := some [9, 8, 7, 6] }
    2 1 30000 1001 4 "UYVY" [9, 8, 7, 6]
    rfl rfl rfl (by decide) rfl rfl rfl rfl (by decide) (by decide) (by decide)

/-- Claim C7: when `lineStrideInBytes` is absent, `ObjectToVideoFrame`
computes the stride as width times bytes-per-pixel — 4 for each packed
32-bit format (BGRA, BGRX, RGBA, RGBX) and 2 for the packed 4:2:2 format
UYVY — and when `pictureAspectRatio` is absent it defaults to width
divided by height (the float division modelled as the exact rational). -/
theorem objectToVideoFrame_default_stride_aspect
    (obj : VideoFrameObj) (x y : Int) (s : String)
    (hx : obj.xres = some x) (hy : obj.yres = some y)
    (hfour : obj.fourCC = some s)
    (hstride : obj.lineStrideInBytes = none)
    (haspect : obj.pictureAspectRatio = none)
    (hy0 : y ≠ 0) :
    (s ∈ (["BGRA", "BGRX", "RGBA", "RGBX"] : List String) →
      (ObjectToVideoFrame obj).lineStrideInBytes = x * 4) ∧
    (s = "UYVY" → (ObjectToVideoFrame obj).lineStrideInBytes = x * 2) ∧
    (ObjectToVideoFrame obj).pictureAspectRatio = (x : Rat) / (y : Rat) := by
  refine ⟨?_, ?_, ?_⟩
  · intro hmem
    fin_cases hmem <;>
      simp [ObjectToVideoFrame, hx, hfour, hstride, StringToFourCC]
  · intro hUYVY
    subst hUYVY
    simp [ObjectToVideoFrame, hx, hfour, hstride, StringToFourCC]
  · simp [ObjectToVideoFrame, hx, hy, haspect]

/-- Concrete instance of the C7 defaults on a 1920-by-1080 BGRA frame. -/
theorem objectToVideoFrame_default_stride_aspect_witness :
    (ObjectToVideoFrame
      { xres := some 1920, yres := some 1080, fourCC := some "BGRA" }).lineStrideInBytes
      = 1920 * 4 ∧
    (ObjectToVideoFrame
      { xres := some 1920, yres := some 1080, fourCC := some "BGRA" }).pictureAspectRatio
      = ((1920 : Int) : Rat) / ((1080 : Int) : Rat) := by
  have h := objectToVideoFrame_default_stride_aspect
    { xres := some 1920, yres := some 1080, fourCC := some "BGRA" }
    1920 1080 "BGRA" rfl rfl rfl rfl rfl (by decide)
  exact ⟨h.1 (by decide), h.2.2⟩

/-- Claim C10: `StringToFourCC` is total with a silent BGRA default for
every string outside the nine known FourCC names, and on each of the nine
known names `FourCCToString` inverts it. -/
theorem stringToFourCC_total_and_roundtrip (s : String) :
    (s ∉ nineFourCCNames → StringToFourCC s = .BGRA) ∧
    (s ∈ nineFourCCNames → FourCCToString (StringToFourCC s) = s) := by
  constructor
  · intro h
    simp only [nineFourCCNames, List.mem_cons, List.not_mem_nil, or_false, not_or] at h
    obtain ⟨h1, h2, h3, h4, h5, h6, h7, h8, h9⟩ := h
    simp [StringToFourCC, h1, h2, h3, h4, h5, h6, h7, h8, h9]
  · exact fourCCToString_stringToFourCC s

/-- Concrete instances of C10: an unknown tag falls back to BGRA and a
known tag round-trips. -/
theorem stringToFourCC_total_and_roundtrip_witness :
    StringToFourCC "YV12" = .BGRA ∧
    FourCCToString (StringToFourCC "NV12") = "NV12" :=
  ⟨(stringToFourCC_total_and_roundtrip "YV12").1 (by decide),
   (stringToFourCC_total_and_roundtrip "NV12").2 (by decide)⟩

/-- Counterexample to claim C2 as stated: after `destroy()` on a freshly
created sender, the `setTally` operation does not fail with the
destroyed-handle error — it succeeds as a documented compatibility no-op. -/
theorem sender_setTally_after_destroy_no_error :
    senderOpGuard (senderDestroy {}).1 .setTally = .ok () ∧
    senderOpGuard (senderDestroy {}).1 .setTally ≠ .error .destroyedHandle := by
  refine ⟨rfl, ?_⟩
  intro h
  cases h

/-- Claim C2 (amended): for every handle kind, after `destroy()` every
operation that touches the native handle fails with the destroyed-handle
error — for the sender this is every operation except `setTally`, a
documented no-op kept for API compatibility — and a second `destroy()` is
a no-op that performs no native action and never throws. -/
theorem destroyed_handle_semantics
    (fs : FinderState) (ss : SenderState) (rs : ReceiverState) :
    (∀ op : FinderOp, finderOpGuard (finderDestroy fs).1 op = .error .destroyedHandle) ∧
    (∀ op : ReceiverOp, receiverOpGuard (receiverDestroy rs).1 op = .error .destroyedHandle) ∧
    (∀ op : SenderOp, op ≠ .setTally →
      senderOpGuard (senderDestroy ss).1 op = .error .destroyedHandle) ∧
    finderDestroy (finderDestroy fs).1 = ((finderDestroy fs).1, false) ∧
    receiverDestroy (receiverDestroy rs).1 = ((receiverDestroy rs).1, false) ∧
    senderDestroy (senderDestroy ss).1 = ((senderDestroy ss).1, []) := by
  obtain ⟨fp, fd⟩ := fs
  obtain ⟨rp, rd⟩ := rs
  obtain ⟨sp, sd, sb, srefs⟩ := ss
  refine ⟨?_, ?_, ?_, ?_, ?_, ?_⟩
  · intro op
    cases fp <;> cases fd <;> rfl
  · intro op
    cases rp <;> cases rd <;> rfl
  · intro op hop
    cases sp <;> cases sd <;> rcases sb with _ | b <;> cases op <;>
      first
        | exact absurd rfl hop
        | rfl
  · cases fp <;> cases fd <;> rfl
  · cases rp <;> cases rd <;> rfl
  · cases sp <;> cases sd <;> rcases sb with _ | b <;> rfl

/-- Concrete instance of C2 on freshly created handles. -/
theorem destroyed_handle_semantics_witness :
    finderOpGuard (finderDestroy {}).1 .getSources = .error .destroyedHandle ∧
    receiverOpGuard (receiverDestroy {}).1 .capture = .error .destroyedHandle ∧
    senderOpGuard (senderDestroy {}).1 .sendVideo = .error .destroyedHandle ∧
    finderDestroy (finderDestroy {}).1 = ((finderDestroy {}).1, false) ∧
    receiverDestroy (receiverDestroy {}).1 = ((receiverDestroy {}).1, false) ∧
    senderDestroy (senderDestroy {}).1 = ((senderDestroy {}).1, []) := by
  have h := destroyed_handle_semantics {} {} {}
  exact ⟨h.1 .getSources, h.2.1 .capture, h.2.2.1 .sendVideo (by decide),
    h.2.2.2.1, h.2.2.2.2.1, h.2.2.2.2.2⟩

/-- The ghost native-reference set always mirrors `m_asyncVideoBuffer`. -/
def bufInv (s : SenderState) : Prop :=
  s.nativeAsyncRefs = s.asyncVideoBuffer.toList

theorem bufInv_step (s : SenderState) (c : SenderCmd) (h : bufInv s) :
    bufInv (senderStep s c) := by
  obtain ⟨p, d, ab, refs⟩ := s
  cases c with
  | sendAsync b =>
      cases p <;> cases d <;> rcases ab with _ | old <;>
        simp_all [bufInv, senderStep, sendVideoAsync]
  | destroy =>
      cases p <;> cases d <;> rcases ab with _ | old <;>
        simp_all [bufInv, senderStep, senderDestroy]

theorem bufInv_run (s : SenderState) (cmds : List SenderCmd) (h : bufInv s) :
    bufInv (runSender s cmds) := by
  induction cmds generalizing s with
  | nil => exact h
  | cons c rest ih => exact ih (senderStep s c) (bufInv_step s c h)

/-- Claim C3: along every command sequence from a fresh sender, at most
one host buffer is referenced by outstanding native async send state; a
`sendVideoAsync` issued while a buffer is outstanding first sends the
null flush frame, then releases the previous buffer, and only then issues
the async send of the new one; and `destroy()` with an outstanding buffer
flushes and releases it before destroying the native handle. -/
theorem sendVideoAsync_single_outstanding
    (cmds : List SenderCmd) (s : SenderState) (b : Nat) (nb : Option Nat)
    (hp : s.present = true) (hd : s.destroyed = false)
    (hb : s.asyncVideoBuffer = some b) :
    (runSender {} cmds).nativeAsyncRefs.length ≤ 1 ∧
    sendVideoAsync s nb =
      .ok ({ s with asyncVideoBuffer := nb, nativeAsyncRefs := nb.toList },
           [NativeAct.flushNull, NativeAct.releaseBuf b, NativeAct.asyncSendFrame nb]) ∧
    senderDestroy s =
      ({ s with present := false, destroyed := true,
                asyncVideoBuffer := none, nativeAsyncRefs := [] },
       [NativeAct.flushNull, NativeAct.releaseBuf b, NativeAct.destroyHandle]) := by
  obtain ⟨p, d, ab, refs⟩ := s
  simp only at hp hd hb
  subst hp; subst hd; subst hb
  refine ⟨?_, rfl, rfl⟩
  have h := bufInv_run {} cmds rfl
  rw [bufInv] at h
  rw [h]
  cases (runSender {} cmds).asyncVideoBuffer <;> simp

/-- Concrete instance of C3: two consecutive async sends from a fresh
sender, and the flush/release/send and flush/release/destroy orderings on
a sender with buffer 5 outstanding. -/
theorem sendVideoAsync_single_outstanding_witness :
    (runSender {} [SenderCmd.sendAsync (some 1),
                   SenderCmd.sendAsync (some 2)]).nativeAsyncRefs.length ≤ 1 ∧
    sendVideoAsync { asyncVideoBuffer := some 5 } (some 6) =
      .ok ({ asyncVideoBuffer := some 6, nativeAsyncRefs := [6] },
           [NativeAct.flushNull, NativeAct.releaseBuf 5, NativeAct.asyncSendFrame (some 6)]) ∧
    senderDestroy { asyncVideoBuffer := some 5 } =
      ({ present := false, destroyed := true,
         asyncVideoBuffer := none, nativeAsyncRefs := [] },
       [NativeAct.flushNull, NativeAct.releaseBuf 5, NativeAct.destroyHandle]) :=
  sendVideoAsync_single_outstanding
    [SenderCmd.sendAsync (some 1), SenderCmd.sendAsync (some 2)]
    { asyncVideoBuffer := some 5 } 5 (some 6) rfl rfl rfl

/-- Claim C8: on a valid (non-destroyed) sender, a native tally failure
makes the synchronous `getTally` return `null` and makes the async
worker resolve the promise with `null` — neither path throws or rejects. -/
theorem getTally_failure_returns_null (s : SenderState) (t : Tally)
    (hp : s.present = true) (hd : s.destroyed = false) :
    senderGetTally s false t = .ok none ∧
    getTallyWorkerResolve false t = none := by
  refine ⟨?_, rfl⟩
  simp [senderGetTally, hp, hd]

/-- Concrete instance of C8 on a fresh sender. -/
theorem getTally_failure_returns_null_witness :
    senderGetTally {} false { onProgram := false, onPreview := false } = .ok none ∧
    getTallyWorkerResolve false { onProgram := false, onPreview := false } = none :=
  getTally_failure_returns_null {} { onProgram := false, onPreview := false } rfl rfl

theorem captureLoopRun_stopped (steps : List CaptureStep) :
    captureLoopRun false steps = [] := by
  induction steps with
  | nil => rfl
  | cons st rest ih => cases st <;> simpa [captureLoopRun, captureLoopStep] using ih

theorem captureLoopRun_append (pre post : List CaptureStep) (c : Bool) :
    captureLoopRun c (pre ++ post) =
      captureLoopRun c pre ++ captureLoopRun (captureLoopState c pre) post := by
  induction pre generalizing c with
  | nil => rfl
  | cons st rest ih =>
      simp [captureLoopRun, captureLoopState, ih, List.foldl_cons]

/-- Claim C4: once a `stop` step has cleared the capturing flag, the
capture loop emits no further events — in particular the resolution of a
capture call that was in flight at the moment of stopping, whatever its
tag, is discarded.  The events of the whole run equal the events emitted
before the stop. -/
theorem captureLoop_no_events_after_stop (pre post : List CaptureStep) :
    captureLoopRun true (pre ++ CaptureStep.stop :: post) = captureLoopRun true pre := by
  rw [captureLoopRun_append]
  have hstop : captureLoopRun (captureLoopState true pre) (CaptureStep.stop :: post) = [] := by
    simp [captureLoopRun, captureLoopStep, captureLoopRun_stopped]
  simp [hstop]

/-- Counterexample to claim C5 as stated: a tick in which the native
changed flag is false but the serialized snapshot differs from the last
emitted one produces no sources event, although the claimed
content-difference criterion demands one. -/
theorem pollStep_content_change_without_flag_not_emitted :
    (pollStep (serializeSources []) false [("CAM1", "")]).2 = false ∧
    serializeSources [("CAM1", "")] ≠ serializeSources [] := by
  refine ⟨rfl, ?_⟩
  decide

/-- Claim C5 (amended): on every polling tick the sources event is
emitted if and only if the native layer reported a change AND the
serialized snapshot differs from the last emitted one; the retained
snapshot is updated exactly on emission. -/
theorem pollStep_emit_characterization
    (last : String) (changed : Bool) (srcs : List NdiSource) :
    ((pollStep last changed srcs).2 = true ↔
      (changed = true ∧ serializeSources srcs ≠ last)) ∧
    (pollStep last changed srcs).1 =
      if changed = true ∧ serializeSources srcs ≠ last then serializeSources srcs
      else last := by
  cases changed <;> by_cases h : serializeSources srcs = last <;> simp [pollStep, h]

/-- Counterexample to claim C6 as stated: an audio frame whose channel
stride (8 bytes) exceeds `noSamples * 4` yields an async-capture payload
of 4 bytes, not `channelStride * channelCount = 8` bytes. -/
theorem captureAudioPayload_stride_counterexample :
    captureAudioPayloadBytes
      { noChannels := 1, noSamples := 1, channelStrideInBytes := 8,
        data := some [0, 0] } = 4 ∧
    (4 : Int) ≠
      ({ noChannels := 1, noSamples := 1, channelStrideInBytes := 8,
         data := some [0, 0] } : NativeAudioFrame).channelStrideInBytes *
      ({ noChannels := 1, noSamples := 1, channelStrideInBytes := 8,
         data := some [0, 0] } : NativeAudioFrame).noChannels := by
  refine ⟨rfl, ?_⟩
  decide

/-- Claim C6 (amended): the async capture workers deep-copy exactly
`sampleCount * channelCount` 32-bit float samples, so the host-owned
payload is `sampleCount * channelCount * 4` bytes; this equals
`channelStride * channelCount` exactly when the channel stride is the
default `sampleCount * 4`.  In particular sampleCount 1600 with
channelCount 2 yields 12800 bytes (3200 float samples). -/
theorem captureAudioPayload_size (f : NativeAudioFrame) (samples : List Int)
    (hdata : f.data = some samples)
    (hs : 0 < f.noSamples) (hc : 0 < f.noChannels)
    (hlen : (f.noSamples * f.noChannels).toNat ≤ samples.length) :
    captureAudioPayloadBytes f = 4 * (f.noSamples * f.noChannels).toNat ∧
    (f.channelStrideInBytes = f.noSamples * 4 →
      (captureAudioPayloadBytes f : Int) = f.channelStrideInBytes * f.noChannels) := by
  have hlen2 : (captureAudioPayload f).length = (f.noSamples * f.noChannels).toNat := by
    simp [captureAudioPayload, hdata, hs, hc, List.length_take, hlen]
  constructor
  · simp [captureAudioPayloadBytes, hlen2]
  · intro hstr
    have hnn : (0 : Int) ≤ f.noSamples * f.noChannels := (mul_pos hs hc).le
    have h4 : (captureAudioPayloadBytes f : Int) = 4 * (f.noSamples * f.noChannels) := by
      rw [captureAudioPayloadBytes, hlen2]
      push_cast [Int.toNat_of_nonneg hnn]
      ring
    rw [h4, hstr]
    ring

/-- Concrete instance of C6 (amended): the spec scenario with
sampleCount 1600, channelCount 2 and the default stride 6400 yields
exactly 12800 payload bytes, matching channelStride times channelCount. -/
theorem captureAudioPayload_size_witness :
    captureAudioPayloadBytes
      { noChannels := 2, noSamples := 1600, channelStrideInBytes := 6400,
        data := some (List.replicate 3200 0) } = 12800 ∧
    (captureAudioPayloadBytes
      { noChannels := 2, noSamples := 1600, channelStrideInBytes := 6400,
        data := some (List.replicate 3200 0) } : Int) = 6400 * 2 := by
  have h := captureAudioPayload_size
    { noChannels := 2, noSamples := 1600, channelStrideInBytes := 6400,
      data := some (List.replicate 3200 0) }
    (List.replicate 3200 0) rfl (by decide) (by decide)
    (by rw [List.length_replicate]; norm_num)
  exact ⟨h.1, h.2 (by decide)⟩

theorem libRun_cons (g : Bool) (e : LibEvent) (es : List LibEvent) :
    libRun g (e :: es) = libRun (libStep g e).state es := rfl

theorem libRun_eq_lastChange (es : List LibEvent) : ∀ g : Bool,
    libRun g es = true ↔
      (lastChange g es = some (.libInit true) ∨ (lastChange g es = none ∧ g = true)) := by
  induction es with
  | nil =>
      intro g
      simp [libRun, lastChange]
  | cons e es ih =>
      intro g
      rw [libRun_cons, ih]
      rcases hlc : lastChange (libStep g e).state es with _ | x
      · cases e with
        | libInit r =>
            cases g <;> cases r <;> simp_all [lastChange, libStep]
        | libDestroy =>
            cases g <;> simp_all [lastChange, libStep]
      · cases e with
        | libInit r =>
            cases g <;> cases r <;> simp_all [lastChange, libStep]
        | libDestroy =>
            cases g <;> simp_all [lastChange, libStep]

/-- Claim C9: the global initialized flag makes `initialize()` idempotent
— called while already initialized it returns true without invoking the
native initialization; `destroy()` while not initialized is a no-op that
invokes no native destroy; and starting from the uninitialized state,
`isInitialized()` reports true after a sequence of calls exactly when the
last call that changed the flag was an `initialize()` that returned
true. -/
theorem libInit_idempotent_flag :
    (∀ r : Bool, libStep true (.libInit r) =
      { state := true, ret := some true, nativeInit := false, nativeDestroy := false }) ∧
    (libStep false .libDestroy =
      { state := false, ret := none, nativeInit := false, nativeDestroy := false }) ∧
    (∀ es : List LibEvent,
      libRun false es = true ↔ lastChange false es = some (.libInit true)) := by
  refine ⟨fun r => rfl, rfl, fun es => ?_⟩
  rw [libRun_eq_lastChange es false]
  simp

end NdiNode
